import Mathlib

/-!
# Verification of the LÖVE SDL3 launcher (`src/love.cpp`)

A shallow embedding of the launcher/bootstrap logic of `src/love.cpp`:
the argument preprocessor `get_app_arguments`, the `arg` global table
construction, and the SDL application-lifecycle callbacks
(`SDL_AppInit`, `SDL_AppIterate`, `SDL_AppEvent`).

Platform-conditional inputs (the macOS/iOS resource-bundle path, the fused
flag, the terminal check, the drop-file string) and environment facts (the
compile-time and runtime version strings, allocation success) are passed as
explicit parameters.  Observable effects (`printf` output, whether the
interpreter was created, the value installed into `love.restart`) are
recorded in an explicit trace structure.
-/

namespace Love

/-- The `SDL_AppResult` enumeration of SDL3's main-callbacks API. -/
inductive SDL_AppResult
  | SDL_APP_CONTINUE
  | SDL_APP_SUCCESS
  | SDL_APP_FAILURE
deriving DecidableEq, Repr

/-- Character-level prefix test: `startsWithChars s p` is true when the
first `p.length` characters of `s` are exactly `p`.  This models
`strncmp(s, p, p.length) == 0` in C: the comparison stops early with a
mismatch when `s` ends (the null terminator differs from the next prefix
character). -/
def startsWithChars : List Char → List Char → Bool
  | _, [] => true
  | [], _ :: _ => false
  | c :: cs, p :: ps => c == p && startsWithChars cs ps

/-- `strncmp(s, "-psn_", 5) == 0` from love.cpp line 87: does the argument
carry the macOS process-serial-number noise prefix? -/
def psnCheck (s : String) : Bool :=
  startsWithChars s.data "-psn_".data

/-- Embedding of `get_app_arguments` (love.cpp lines 81-136).

The first loop copies `argv` into `temp_argv`, skipping any argument for
which `strncmp(argv[i], "-psn_", 5) == 0` unless it is at index 0.  Then,
if the platform resource lookup returned a non-empty path
(`loveResourcesPath`), that path is inserted at index 1 and, when `fused`
is set, the literal `"--fused"` is inserted at index 2.  Otherwise
(macOS), when the process is not attached to a terminal and the drop-file
check returned a non-empty string, that string is inserted at index 1. -/
def get_app_arguments (argv : List String) (loveResourcesPath : String)
    (fused : Bool) (isatty : Bool) (dropfilestr : String) : List String :=
  let temp_argv : List String :=
    match argv with
    | [] => []
    | a0 :: rest => a0 :: rest.filter (fun s => !(psnCheck s))
  if loveResourcesPath ≠ "" then
    let temp2 := temp_argv.insertIdx 1 loveResourcesPath
    if fused then temp2.insertIdx 2 "--fused" else temp2
  else if isatty = false ∧ dropfilestr ≠ "" then
    temp_argv.insertIdx 1 dropfilestr
  else
    temp_argv

/-- The list `temp_argv` after the copy loop of `get_app_arguments`, before
any platform-specific insertion: index 0 is kept unconditionally, later
entries are kept exactly when they do not carry the `-psn_` prefix. -/
def psnFiltered (argv : List String) : List String :=
  match argv with
  | [] => []
  | a0 :: rest => a0 :: rest.filter (fun s => !(psnCheck s))

theorem get_app_arguments_eq (argv : List String) (lrp : String)
    (fused : Bool) (isatty : Bool) (dfs : String) :
    get_app_arguments argv lrp fused isatty dfs =
      if lrp ≠ "" then
        if fused then ((psnFiltered argv).insertIdx 1 lrp).insertIdx 2 "--fused"
        else (psnFiltered argv).insertIdx 1 lrp
      else if isatty = false ∧ dfs ≠ "" then
        (psnFiltered argv).insertIdx 1 dfs
      else
        psnFiltered argv := by
  unfold get_app_arguments psnFiltered
  cases argv <;> simp only []

theorem psnFiltered_cons (a0 : String) (rest : List String) :
    psnFiltered (a0 :: rest) = a0 :: rest.filter (fun s => !(psnCheck s)) :=
  rfl

theorem insertIdx_one_cons (x a0 : String) (l : List String) :
    (a0 :: l).insertIdx 1 x = a0 :: x :: l := by
  rw [List.insertIdx_succ_cons, List.insertIdx_zero]

theorem insertIdx_two_cons (y a0 x : String) (l : List String) :
    (a0 :: x :: l).insertIdx 2 y = a0 :: x :: y :: l := by
  rw [List.insertIdx_succ_cons, List.insertIdx_succ_cons, List.insertIdx_zero]

/-- C4 (counterexample): the claim says an argument with prefix `-psn_` is
dropped only when it appears as the first user argument and is preserved at
later positions.  In `get_app_arguments` the filter condition is
`i == 0 || strncmp(argv[i], "-psn_", 5) != 0`, so a `-psn_`-prefixed
argument at position 2 (a later position) is also dropped, as this concrete
evaluation shows. -/
theorem psn_later_position_not_preserved :
    get_app_arguments ["love", "game", "-psn_0_12345"] "" true true "" =
      ["love", "game"] ∧
    "-psn_0_12345" ∉ get_app_arguments ["love", "game", "-psn_0_12345"] "" true true "" := by
  constructor
  · decide
  · decide

/-- C4 (amended): the Argument Preprocessor drops an argument matching the
platform-injected noise pattern (prefix `-psn_`) at every position other
than index 0: such an argument (when it is not one of the platform-inserted
values) can occur in the output only as the index-0 executable-path
argument. -/
theorem get_app_arguments_psn_drop_any_position (argv : List String)
    (lrp : String) (fused isatty : Bool) (dfs : String) (s : String)
    (hs : psnCheck s = true)
    (hlrp : s ≠ lrp) (hdfs : s ≠ dfs) (hfused : s ≠ "--fused")
    (hmem : s ∈ get_app_arguments argv lrp fused isatty dfs) :
    argv.head? = some s := by
  rw [get_app_arguments_eq] at hmem
  have hfil : ∀ rest : List String,
      s ∉ rest.filter (fun t => !(psnCheck t)) := by
    intro rest hin
    have := (List.mem_filter.mp hin).2
    rw [hs] at this
    exact absurd this (by decide)
  cases argv with
  | nil =>
    simp only [psnFiltered] at hmem
    rw [List.insertIdx_succ_nil] at hmem
    split at hmem
    · split at hmem
      · rw [List.insertIdx_succ_nil] at hmem
        exact absurd hmem (List.not_mem_nil s)
      · exact absurd hmem (List.not_mem_nil s)
    · split at hmem
      · rw [List.insertIdx_succ_nil] at hmem
        exact absurd hmem (List.not_mem_nil s)
      · exact absurd hmem (List.not_mem_nil s)
  | cons a0 rest =>
    rw [psnFiltered_cons] at hmem
    split at hmem
    · rw [insertIdx_one_cons] at hmem
      split at hmem
      · rw [insertIdx_two_cons] at hmem
        simp only [List.mem_cons] at hmem
        rcases hmem with h | h | h | h
        · exact h ▸ rfl
        · exact absurd h hlrp
        · exact absurd h hfused
        · exact absurd h (hfil rest)
      · simp only [List.mem_cons] at hmem
        rcases hmem with h | h | h
        · exact h ▸ rfl
        · exact absurd h hlrp
        · exact absurd h (hfil rest)
    · split at hmem
      · rw [insertIdx_one_cons] at hmem
        simp only [List.mem_cons] at hmem
        rcases hmem with h | h | h
        · exact h ▸ rfl
        · exact absurd h hdfs
        · exact absurd h (hfil rest)
      · simp only [List.mem_cons] at hmem
        rcases hmem with h | h
        · exact h ▸ rfl
        · exact absurd h (hfil rest)

/-- Witness for C4's amended theorem at a concrete input: the only place a
`-psn_`-prefixed argument survives is index 0. -/
theorem get_app_arguments_psn_drop_any_position_witness :
    (["-psn_5", "a"] : List String).head? = some "-psn_5" :=
  get_app_arguments_psn_drop_any_position ["-psn_5", "a"] "" true true "" "-psn_5"
    (by decide) (by decide) (by decide) (by decide) (by decide)

/-- C7: the Argument Preprocessor never drops the executable-path argument
(it stays at index 0 of the output), the pre-insertion filtered vector is a
subsequence of the output (relative order of all pre-existing arguments is
preserved), and the platform-specific insertion, when it occurs, increases
the length by exactly 1 or 2 (2 exactly when a resource path is found and
fused mode is set). -/
theorem get_app_arguments_preserves_exe_and_order (a0 : String)
    (rest : List String) (lrp : String) (fused isatty : Bool) (dfs : String) :
    (get_app_arguments (a0 :: rest) lrp fused isatty dfs).head? = some a0 ∧
    (psnFiltered (a0 :: rest)).Sublist
      (get_app_arguments (a0 :: rest) lrp fused isatty dfs) ∧
    (get_app_arguments (a0 :: rest) lrp fused isatty dfs).length =
      (psnFiltered (a0 :: rest)).length +
        (if lrp ≠ "" then (if fused then 2 else 1)
         else if isatty = false ∧ dfs ≠ "" then 1 else 0) := by
  rw [get_app_arguments_eq, psnFiltered_cons]
  split
  · split
    · rw [insertIdx_one_cons, insertIdx_two_cons]
      exact ⟨rfl,
        List.Sublist.cons₂ _ (List.Sublist.cons _ (List.Sublist.cons _ (List.Sublist.refl _))),
        by simp⟩
    · rw [insertIdx_one_cons]
      exact ⟨rfl, List.Sublist.cons₂ _ (List.Sublist.cons _ (List.Sublist.refl _)), by simp⟩
  · split
    · rw [insertIdx_one_cons]
      exact ⟨rfl, List.Sublist.cons₂ _ (List.Sublist.cons _ (List.Sublist.refl _)), by simp⟩
    · exact ⟨rfl, List.Sublist.refl _, by simp⟩

/-- `lua_rawseti(L, -2, i)` on the string-valued global `arg` table,
modelled as a pointwise update of a partial map on integer keys. -/
def rawseti (t : Int → Option String) (i : Int) (v : String) : Int → Option String :=
  fun j => if j = i then some v else t j

/-- The loop `for (int i = 1; i < argc; i++) { lua_pushstring(L, argv[i]);
lua_rawseti(L, -2, i); }` of love.cpp lines 238-242, started at `i`. -/
def setUserArgs (t : Int → Option String) (argv : List String) (i : Nat) :
    Int → Option String :=
  if h : i < argv.length then
    setUserArgs (rawseti t ((i : Int)) (argv.get ⟨i, h⟩)) argv (i + 1)
  else
    t
termination_by argv.length - i

/-- The global `arg` table built by `SDL_AppInit` (love.cpp lines 226-245):
a fresh table; if `argc > 0` then `arg[-2] = argv[0]`; then
`arg[-1] = "embedded boot.lua"`; then `arg[i] = argv[i]` for
`1 <= i < argc`. -/
def buildArgTable (argv : List String) : Int → Option String :=
  let t : Int → Option String := fun _ => none
  let t := match argv.head? with
    | some a0 => rawseti t (-2) a0
    | none => t
  let t := rawseti t (-1) "embedded boot.lua"
  setUserArgs t argv 1

theorem setUserArgs_out (argv : List String) :
    ∀ (n i : Nat) (t : Int → Option String) (j : Int),
      argv.length - i ≤ n → (j < (i : Int) ∨ (argv.length : Int) ≤ j) →
      setUserArgs t argv i j = t j := by
  intro n
  induction n with
  | zero =>
    intro i t j hn hj
    unfold setUserArgs
    rw [dif_neg (by omega)]
  | succ m ih =>
    intro i t j hn hj
    by_cases h : i < argv.length
    · unfold setUserArgs
      rw [dif_pos h]
      rw [ih (i + 1) _ j (by omega) (by omega)]
      unfold rawseti
      rw [if_neg (by omega)]
    · unfold setUserArgs
      rw [dif_neg h]

theorem setUserArgs_get (argv : List String) :
    ∀ (n i : Nat) (t : Int → Option String) (k : Nat) (hk : k < argv.length),
      argv.length - i ≤ n → i ≤ k →
      setUserArgs t argv i ((k : Int)) = some (argv.get ⟨k, hk⟩) := by
  intro n
  induction n with
  | zero =>
    intro i t k hk hn hik
    omega
  | succ m ih =>
    intro i t k hk hn hik
    have h : i < argv.length := by omega
    unfold setUserArgs
    rw [dif_pos h]
    by_cases hik2 : i = k
    · subst hik2
      rw [setUserArgs_out argv m (i + 1) _ _ (by omega) (by omega)]
      unfold rawseti
      rw [if_pos rfl]
    · exact ih (i + 1) _ k hk (by omega) (by omega)

/-- C5: the global `arg` table built by the bootstrapper holds the
synthetic marker `"embedded boot.lua"` at the distinguished negative index
`-1` (distinct from the executable path, which is never stored there), the
real executable path at the non-positive index `-2` rather than at index 0
(index 0 holds nothing), and the user-supplied arguments starting at index
1 in their original order. -/
theorem arg_table_layout (argv : List String) (a0 : String) (i : Nat)
    (h0 : argv.head? = some a0) (hA : a0 ≠ "embedded boot.lua") (hi : 1 ≤ i) :
    buildArgTable argv (-1) = some "embedded boot.lua" ∧
    buildArgTable argv (-2) = some a0 ∧
    buildArgTable argv (-1) ≠ buildArgTable argv (-2) ∧
    buildArgTable argv 0 = none ∧
    buildArgTable argv ((i : Int)) = argv[i]? := by
  have hbuild : buildArgTable argv =
      setUserArgs
        (rawseti (rawseti (fun _ => none) (-2) a0) (-1) "embedded boot.lua")
        argv 1 := by
    unfold buildArgTable
    rw [h0]
  have hlen : 0 < argv.length := by
    cases argv with
    | nil => simp at h0
    | cons x xs => simp
  refine ⟨?_, ?_, ?_, ?_, ?_⟩
  · rw [hbuild, setUserArgs_out argv argv.length 1 _ (-1) (by omega) (by omega)]
    unfold rawseti
    rw [if_pos rfl]
  · rw [hbuild, setUserArgs_out argv argv.length 1 _ (-2) (by omega) (by omega)]
    unfold rawseti
    rw [if_neg (by omega), if_pos rfl]
  · rw [hbuild, setUserArgs_out argv argv.length 1 _ (-1) (by omega) (by omega),
      setUserArgs_out argv argv.length 1 _ (-2) (by omega) (by omega)]
    unfold rawseti
    rw [if_pos rfl, if_neg (by omega), if_pos rfl]
    intro hcontra
    exact hA (Option.some_injective _ hcontra).symm
  · rw [hbuild, setUserArgs_out argv argv.length 1 _ 0 (by omega) (by omega)]
    unfold rawseti
    rw [if_neg (by omega), if_neg (by omega)]
  · by_cases hik : i < argv.length
    · rw [hbuild, setUserArgs_get argv argv.length 1 _ i hik (by omega) hi]
      rw [List.getElem?_eq_getElem hik]
      rfl
    · rw [hbuild, setUserArgs_out argv argv.length 1 _ ((i : Int)) (by omega) (by omega)]
      unfold rawseti
      rw [if_neg (by omega), if_neg (by omega)]
      rw [List.getElem?_eq_none (by omega)]

/-- Witness for C5 at the concrete invocation `["love", "mygame"]` and user
index 1. -/
theorem arg_table_layout_witness :
    buildArgTable ["love", "mygame"] (-1) = some "embedded boot.lua" ∧
    buildArgTable ["love", "mygame"] (-2) = some "love" ∧
    buildArgTable ["love", "mygame"] (-1) ≠ buildArgTable ["love", "mygame"] (-2) ∧
    buildArgTable ["love", "mygame"] 0 = none ∧
    buildArgTable ["love", "mygame"] (((1 : Nat) : Int)) = (["love", "mygame"] : List String)[1]? :=
  arg_table_layout ["love", "mygame"] "love" 1 (by rfl) (by decide) (by decide)

/-- `love::Variant`: either the default-constructed (nil) variant or an
application-defined payload. -/
inductive Variant
  | nil_
  | value (s : String)
deriving DecidableEq, Repr

/-- The spec's process-wide pending `RestartValue`.  The spec ("Process-wide
cached platform check and pending restart value", §5, §3) treats the pending
restart value as state that outlives a single `init`/`quit` cycle.  The
source has no corresponding process-wide variable: `restartvalue` in
`SDL_AppInit` (love.cpp line 179) is a function-local that is
default-constructed on every call.  This structure carries the spec-side
pending value through `SDL_AppInit` so that its (non-)consumption by the
code can be stated. -/
structure ProcessState where
  pendingRestart : Variant
deriving DecidableEq, Repr

/-- How a single `SDL_AppInit` call ends: a returned `SDL_AppResult`, or a
crash (undefined behaviour, e.g. a null-pointer dereference). -/
inductive InitOutcome
  | ret (r : SDL_AppResult)
  | crash
deriving DecidableEq, Repr

/-- Environment of one `SDL_AppInit` call: the compile-time version string
(`LOVE_VERSION_STRING`), the runtime library version (`love_version()`) and
codename (`love_codename()`), the raw argument vector, whether
`malloc(sizeof(struct app_globals))` and `luaL_newstate()` succeed, and the
platform inputs consumed by `get_app_arguments`. -/
structure InitEnv where
  compiledVersion : String
  runtimeVersion : String
  codename : String
  argv : List String
  mallocOk : Bool
  newstateOk : Bool
  loveResourcesPath : String
  fused : Bool
  isatty : Bool
  dropfilestr : String
deriving DecidableEq, Repr

/-- Observable trace of one `SDL_AppInit` call: the outcome, whether the
interpreter instance was created (`luaL_newstate` returned a live state),
whether the `app_globals` allocation succeeded, the `printf` output lines,
and the value stored into `love.restart` (`none` when bootstrap never
reached that step). -/
structure InitTrace where
  outcome : InitOutcome
  interpreterCreated : Bool
  appStateAllocated : Bool
  output : List String
  restartField : Option Variant
deriving DecidableEq, Repr

/-- The message of love.cpp lines 174-175. -/
def versionMismatchMessage (compiled runtime : String) : String :=
  "Version mismatch detected!\nLOVE binary is version " ++ compiled ++
    "\nLOVE library is version " ++ runtime ++ "\n"

/-- The message of love.cpp line 189: `printf("LOVE %s (%s)\n", ...)`. -/
def versionMessage (runtime codename : String) : String :=
  "LOVE " ++ runtime ++ " (" ++ codename ++ ")\n"

/-- The fixed text printed by `print_usage` (love.cpp lines 150-163). -/
def usageText : String :=
  "LOVE is an *awesome* framework you can use to make 2D games in Lua\n" ++
  "https://love2d.org\n" ++
  "\n" ++
  "usage:\n" ++
  "    love --version                  prints LOVE version and quits\n" ++
  "    love --help                     prints this message and quits\n" ++
  "    love path/to/gamedir            runs the game from the given directory which contains a main.lua file\n" ++
  "    love path/to/packagedgame.love  runs the packaged game from the provided .love file\n" ++
  "    love path/to/file.lua           runs the game from the given .lua file\n"

/-- Embedding of `SDL_AppInit` (love.cpp lines 170-290).

In source order: the version gate (lines 172-177); the local
`love::Variant restartvalue` (line 179, default-constructed nil); the
`--version` branch (lines 183-191); the `--help` branch (lines 193-197);
`malloc` of `app_globals` followed by `luaL_newstate` (lines 199-204) —
neither result is checked, so a failed `malloc` crashes at `g->L = L`
(after `luaL_newstate` already ran) and a failed `luaL_newstate` crashes in
`luaL_openlibs(L)`; then jitsetup, `get_app_arguments`, the `arg` table,
`require "love"`, `love._exe = true`, `love.restart = restartvalue` with
the local cleared (lines 260-263), `require "love.boot"`, coroutine
creation and the capture of `stackpos`, ending in `SDL_APP_CONTINUE`.

The function never reads or writes any process-wide restart state, so the
`ProcessState` is returned unchanged. -/
def SDL_AppInit (env : InitEnv) (ps : ProcessState) : InitTrace × ProcessState :=
  if env.compiledVersion ≠ env.runtimeVersion then
    (⟨.ret .SDL_APP_FAILURE, false, false,
      [versionMismatchMessage env.compiledVersion env.runtimeVersion], none⟩, ps)
  else
    let restartvalue := Variant.nil_
    if env.argv[1]? = some "--version" then
      (⟨.ret .SDL_APP_SUCCESS, false, false,
        [versionMessage env.runtimeVersion env.codename], none⟩, ps)
    else if env.argv[1]? = some "--help" then
      (⟨.ret .SDL_APP_SUCCESS, false, false, [usageText], none⟩, ps)
    else if env.mallocOk = false then
      (⟨.crash, env.newstateOk, false, [], none⟩, ps)
    else if env.newstateOk = false then
      (⟨.crash, false, true, [], none⟩, ps)
    else
      (⟨.ret .SDL_APP_CONTINUE, true, true, [], some restartvalue⟩, ps)

/-- An empty process state: no pending restart value. -/
def psNil : ProcessState := ⟨Variant.nil_⟩

/-- C6: given mismatched compile-time and runtime version strings,
`SDL_AppInit` prints both version strings to diagnostic output and returns
a failure status before any other bootstrap step runs: no interpreter is
created, no application state is allocated, and no `love.restart` field is
ever installed. -/
theorem init_version_mismatch_fails_first (env : InitEnv) (ps : ProcessState)
    (h : env.compiledVersion ≠ env.runtimeVersion) :
    (SDL_AppInit env ps).1 =
      ⟨.ret .SDL_APP_FAILURE, false, false,
        [versionMismatchMessage env.compiledVersion env.runtimeVersion], none⟩ := by
  unfold SDL_AppInit
  rw [if_pos h]

/-- Witness for C6 at concrete mismatched version strings. -/
theorem init_version_mismatch_fails_first_witness :
    (SDL_AppInit ⟨"11.5", "12.0", "Mysterious Mysteries", ["love"], true, true,
        "", false, true, ""⟩ psNil).1 =
      ⟨.ret .SDL_APP_FAILURE, false, false,
        [versionMismatchMessage "11.5" "12.0"], none⟩ :=
  init_version_mismatch_fails_first _ psNil (by decide)

/-- A version-mismatched environment whose first user argument is
`--version`. -/
def envGateBeforeFlag : InitEnv :=
  ⟨"11.5", "12.0", "Mysterious Mysteries", ["love", "--version"], true, true,
    "", false, true, ""⟩

/-- C3 (counterexample): the claim quantifies over every invocation whose
first user argument is `--version` or `--help`, but the version gate runs
before the flag checks (love.cpp lines 172-177 precede 183-197).  With
mismatched version strings and first user argument `--version`,
`SDL_AppInit` returns `SDL_APP_FAILURE` and prints the mismatch message
rather than the version output and an early-exit success. -/
theorem version_flag_preempted_by_gate :
    envGateBeforeFlag.argv[1]? = some "--version" ∧
    (SDL_AppInit envGateBeforeFlag psNil).1.outcome =
      InitOutcome.ret SDL_AppResult.SDL_APP_FAILURE ∧
    (SDL_AppInit envGateBeforeFlag psNil).1.output ≠
      [versionMessage envGateBeforeFlag.runtimeVersion envGateBeforeFlag.codename] := by
  refine ⟨rfl, by decide, by decide⟩

/-- C3 (amended): provided the compile-time and runtime version strings
match (so the version gate, which runs first, passes), an invocation whose
first user argument is `--version` or `--help` never creates an interpreter
instance, never allocates the application state, prints the corresponding
output (the version line or the fixed usage text), and returns an
early-exit success status. -/
theorem init_version_help_short_circuit (env : InitEnv) (ps : ProcessState)
    (hv : env.compiledVersion = env.runtimeVersion)
    (hflag : env.argv[1]? = some "--version" ∨ env.argv[1]? = some "--help") :
    (SDL_AppInit env ps).1.interpreterCreated = false ∧
    (SDL_AppInit env ps).1.appStateAllocated = false ∧
    (SDL_AppInit env ps).1.outcome = .ret .SDL_APP_SUCCESS ∧
    (SDL_AppInit env ps).1.output =
      [if env.argv[1]? = some "--version"
       then versionMessage env.runtimeVersion env.codename
       else usageText] := by
  rcases hflag with hf | hf
  · simp [SDL_AppInit, hv, hf]
  · have hne : env.argv[1]? ≠ some "--version" := by
      rw [hf]
      simp
    simp [SDL_AppInit, hv, hf, hne]

/-- Witness for C3's amended theorem at the concrete invocation
`["love", "--help"]` with matching version strings. -/
theorem init_version_help_short_circuit_witness :
    (SDL_AppInit ⟨"11.5", "11.5", "Mysterious Mysteries", ["love", "--help"],
        true, true, "", false, true, ""⟩ psNil).1.interpreterCreated = false ∧
    (SDL_AppInit ⟨"11.5", "11.5", "Mysterious Mysteries", ["love", "--help"],
        true, true, "", false, true, ""⟩ psNil).1.appStateAllocated = false ∧
    (SDL_AppInit ⟨"11.5", "11.5", "Mysterious Mysteries", ["love", "--help"],
        true, true, "", false, true, ""⟩ psNil).1.outcome = .ret .SDL_APP_SUCCESS ∧
    (SDL_AppInit ⟨"11.5", "11.5", "Mysterious Mysteries", ["love", "--help"],
        true, true, "", false, true, ""⟩ psNil).1.output = [usageText] := by
  have h := init_version_help_short_circuit
    ⟨"11.5", "11.5", "Mysterious Mysteries", ["love", "--help"],
      true, true, "", false, true, ""⟩ psNil rfl (Or.inr rfl)
  simpa using h

/-- A version-matched environment in which `malloc` of the `app_globals`
structure fails. -/
def envAllocFail : InitEnv :=
  ⟨"11.5", "11.5", "Mysterious Mysteries", ["love", "game"], false, true,
    "", false, true, ""⟩

/-- C9 (counterexample): when `malloc(sizeof(struct app_globals))` fails,
`SDL_AppInit` does not abort with a failure status: the result is not
checked (love.cpp line 199), so the subsequent `g->L = L` dereferences a
null pointer — a crash, not a failure return. -/
theorem alloc_failure_not_failure_return :
    (SDL_AppInit envAllocFail psNil).1.outcome = InitOutcome.crash ∧
    (SDL_AppInit envAllocFail psNil).1.outcome ≠
      InitOutcome.ret SDL_AppResult.SDL_APP_FAILURE := by
  refine ⟨by decide, by decide⟩

/-- C9 (amended): a native-level allocation failure during bootstrap (the
`app_globals` allocation or the interpreter creation) is never detected:
past the version gate and the flag branches, `SDL_AppInit` dereferences the
failed allocation and crashes instead of aborting with a failure status. -/
theorem init_alloc_failure_crashes (env : InitEnv) (ps : ProcessState)
    (hv : env.compiledVersion = env.runtimeVersion)
    (h1 : env.argv[1]? ≠ some "--version")
    (h2 : env.argv[1]? ≠ some "--help")
    (halloc : env.mallocOk = false ∨ env.newstateOk = false) :
    (SDL_AppInit env ps).1.outcome = InitOutcome.crash := by
  rcases halloc with h | h
  · simp [SDL_AppInit, hv, h1, h2, h]
  · by_cases hm : env.mallocOk = false
    · simp [SDL_AppInit, hv, h1, h2, hm]
    · simp [SDL_AppInit, hv, h1, h2, hm, h]

/-- Witness for C9's amended theorem at a concrete failed allocation. -/
theorem init_alloc_failure_crashes_witness :
    (SDL_AppInit envAllocFail psNil).1.outcome = InitOutcome.crash :=
  init_alloc_failure_crashes envAllocFail psNil rfl (by decide) (by decide)
    (Or.inl rfl)

/-- C2 (code divergence): `restartvalue` is a fresh function-local of
`SDL_AppInit` (love.cpp line 179), not process-wide state.  Whatever
pending restart value exists before the call, the `love.restart` field the
bootstrap installs is always the empty variant, and the process-wide
pending value is never read, consumed, or cleared (the returned process
state is the input state, untouched).  So a value populated before a
restart is never installed by the next init, contradicting the claim. -/
theorem restart_value_never_installed (env : InitEnv) (ps : ProcessState) :
    ((SDL_AppInit env ps).1.restartField = none ∨
     (SDL_AppInit env ps).1.restartField = some Variant.nil_) ∧
    (SDL_AppInit env ps).2 = ps := by
  simp only [SDL_AppInit]
  split
  · exact ⟨Or.inl rfl, rfl⟩
  · split
    · exact ⟨Or.inl rfl, rfl⟩
    · split
      · exact ⟨Or.inl rfl, rfl⟩
      · split
        · exact ⟨Or.inl rfl, rfl⟩
        · split
          · exact ⟨Or.inl rfl, rfl⟩
          · exact ⟨Or.inr rfl, rfl⟩

/-- Values sitting on the interpreter's argument stack, opaque to the
driver. -/
abbrev LuaValue := String

/-- `struct app_globals` (love.cpp lines 165-168) together with the Lua
stack of the state `L` it owns: `stack` lists the stack slots bottom
first, `stackpos` is the depth recorded by `lua_gettop` right after the
entry coroutine was created (love.cpp line 277). -/
structure AppGlobals where
  stack : List LuaValue
  stackpos : Nat
deriving DecidableEq, Repr

/-- The outcome of `love::luax_resume`: normal completion (`LUA_OK`), a
cooperative yield (`LUA_YIELD`), or an unhandled error (any of Lua's error
codes). -/
inductive ResumeStatus
  | LUA_OK
  | LUA_YIELD
  | LUA_ERR
deriving DecidableEq, Repr

/-- `lua_gettop`: the current stack depth. -/
def lua_gettop (stack : List LuaValue) : Nat := stack.length

/-- `lua_pop(L, n)`: remove the top `n` slots. -/
def lua_pop (stack : List LuaValue) (n : Nat) : List LuaValue :=
  stack.take (stack.length - n)

/-- Embedding of `SDL_AppIterate` (love.cpp lines 292-306).

`luax_resume(g->L, 0, &nres)` resumes the boot coroutine; `status` is its
return code and `results` the `nres` values it leaves above the previous
top of `g->L`'s stack.  On `LUA_YIELD` the code pops `nres` values when
`LUA_VERSION_NUM >= 504`, and pops down to the recorded `g->stackpos`
otherwise, then reports `SDL_APP_CONTINUE`.  On any other status — normal
completion or an unhandled error alike — it reports `SDL_APP_SUCCESS`.
The last component is the diagnostic output, which is always empty:
`SDL_AppIterate` prints nothing. -/
def SDL_AppIterate (luaVersionNum : Nat) (g : AppGlobals)
    (status : ResumeStatus) (results : List LuaValue) :
    AppGlobals × SDL_AppResult × List String :=
  let stack1 := g.stack ++ results
  match status with
  | ResumeStatus.LUA_YIELD =>
    let stack2 :=
      if 504 ≤ luaVersionNum then lua_pop stack1 results.length
      else lua_pop stack1 (lua_gettop stack1 - g.stackpos)
    (⟨stack2, g.stackpos⟩, SDL_AppResult.SDL_APP_CONTINUE, [])
  | _ =>
    (⟨stack1, g.stackpos⟩, SDL_AppResult.SDL_APP_SUCCESS, [])

theorem SDL_AppIterate_yield (luaVersionNum : Nat) (g : AppGlobals)
    (results : List LuaValue) :
    SDL_AppIterate luaVersionNum g ResumeStatus.LUA_YIELD results =
      (⟨if 504 ≤ luaVersionNum then lua_pop (g.stack ++ results) results.length
        else lua_pop (g.stack ++ results)
          (lua_gettop (g.stack ++ results) - g.stackpos),
        g.stackpos⟩, SDL_AppResult.SDL_APP_CONTINUE, []) := rfl

/-- C1 (counterexample): at a concrete iterate call in which the resumed
coroutine raises an unhandled error, the callback returns
`SDL_APP_SUCCESS` — not `SDL_APP_FAILURE` — and prints nothing: the error
payload is swallowed rather than surfaced. -/
theorem iterate_error_not_reported :
    (SDL_AppIterate 501 ⟨["thread", "bootfn"], 2⟩ ResumeStatus.LUA_ERR
        ["error: boom"]).2.1 = SDL_AppResult.SDL_APP_SUCCESS ∧
    (SDL_AppIterate 501 ⟨["thread", "bootfn"], 2⟩ ResumeStatus.LUA_ERR
        ["error: boom"]).2.1 ≠ SDL_AppResult.SDL_APP_FAILURE ∧
    (SDL_AppIterate 501 ⟨["thread", "bootfn"], 2⟩ ResumeStatus.LUA_ERR
        ["error: boom"]).2.2 = [] := by
  refine ⟨by decide, by decide, by decide⟩

/-- C1 (amended): for every iterate call in which the resumed execution
context raises an unhandled error, `SDL_AppIterate` stops the lifecycle
with `SDL_APP_SUCCESS` — the same result as normal completion, not a
failure report — and produces no diagnostic output: the error payload is
swallowed. -/
theorem iterate_error_swallowed (luaVersionNum : Nat) (g : AppGlobals)
    (results : List LuaValue) :
    (SDL_AppIterate luaVersionNum g ResumeStatus.LUA_ERR results).2.1 =
      SDL_AppResult.SDL_APP_SUCCESS ∧
    (SDL_AppIterate luaVersionNum g ResumeStatus.LUA_ERR results).2.2 = [] :=
  ⟨rfl, rfl⟩

/-- C8: when `SDL_AppIterate` is called with the stack at the recorded
marker depth (as established when the marker was captured right after the
entry coroutine was created, and re-established by every yielding
iterate), a resume that yields has exactly the values it left above the
marker discarded: the resulting stack is the original stack (all contents
below the marker unchanged), its depth is the recorded `stackpos`, and the
callback reports `SDL_APP_CONTINUE`.  This holds in both the
`LUA_VERSION_NUM >= 504` branch (pop `nres`) and the marker branch (pop
down to `stackpos`). -/
theorem iterate_yield_discards_to_marker (luaVersionNum : Nat)
    (g : AppGlobals) (results : List LuaValue)
    (hinv : g.stack.length = g.stackpos) :
    (SDL_AppIterate luaVersionNum g ResumeStatus.LUA_YIELD results).1.stack =
      g.stack ∧
    (SDL_AppIterate luaVersionNum g
        ResumeStatus.LUA_YIELD results).1.stack.length = g.stackpos ∧
    (SDL_AppIterate luaVersionNum g ResumeStatus.LUA_YIELD results).2.1 =
      SDL_AppResult.SDL_APP_CONTINUE := by
  have hstack :
      (SDL_AppIterate luaVersionNum g ResumeStatus.LUA_YIELD results).1.stack =
        g.stack := by
    rw [SDL_AppIterate_yield]
    unfold lua_pop lua_gettop
    split
    · rw [List.length_append, Nat.add_sub_cancel, List.take_left]
    · rw [List.length_append, hinv]
      have harith : g.stackpos + results.length -
          (g.stackpos + results.length - g.stackpos) = g.stackpos := by
        omega
      rw [harith, ← hinv, List.take_left]
  exact ⟨hstack, by rw [hstack, hinv], rfl⟩

/-- Witness for C8 at a concrete yielding iterate call. -/
theorem iterate_yield_discards_to_marker_witness :
    (SDL_AppIterate 501 ⟨["thread", "bootfn"], 2⟩ ResumeStatus.LUA_YIELD
        ["leftover"]).1.stack = ["thread", "bootfn"] ∧
    (SDL_AppIterate 501 ⟨["thread", "bootfn"], 2⟩ ResumeStatus.LUA_YIELD
        ["leftover"]).1.stack.length = 2 ∧
    (SDL_AppIterate 501 ⟨["thread", "bootfn"], 2⟩ ResumeStatus.LUA_YIELD
        ["leftover"]).2.1 = SDL_AppResult.SDL_APP_CONTINUE :=
  iterate_yield_discards_to_marker 501 ⟨["thread", "bootfn"], 2⟩ ["leftover"]
    (by decide)

/-- An SDL event, opaque to this layer. -/
structure SDL_Event where
deriving DecidableEq, Repr

/-- Embedding of `SDL_AppEvent` (love.cpp lines 308-311).  The function is
declared to return `SDL_AppResult`, but its body is empty: control flows
off the end of a value-returning function, so no defined result value is
produced (undefined behaviour in C++).  The absent return value is
modelled as `none`. -/
def SDL_AppEvent (appstate : Option AppGlobals) (event : SDL_Event) :
    Option SDL_AppResult :=
  none

/-- C10 (code divergence): for every invocation of the event callback with
any state and any event, the callback produces NO defined result value:
the source's `SDL_AppEvent` contains no return statement, so the
`SDL_AppResult` the host reads is undefined and the host callback's
required return contract is not satisfied. -/
theorem event_returns_no_defined_result (appstate : Option AppGlobals)
    (event : SDL_Event) :
    SDL_AppEvent appstate event = none ∧
    ∀ r : SDL_AppResult, SDL_AppEvent appstate event ≠ some r :=
  ⟨rfl, fun r h => Option.noConfusion h⟩

end Love
